import Mathlib

/-!
Shallow embedding of `src/server.js` (cardapio-pix), final revision: the
multi-restaurant PIX payment service.  The handlers `POST /pix` and
`POST /webhook/mercadopago` are modelled as pure functions from an explicit
environment (the external collaborators: Mercado Pago API, Firestore, the
clock) and a request record to a result record that carries the HTTP
response together with an effect log (Firestore batch writes, the charge
creation call).  External SDK primitives (the SHA-256 digest, ISO date
parsing/formatting, float-cent rounding) enter as function-valued fields of
the environment; everything the JS code itself computes is translated
directly.
-/

namespace CardapioPix

/-- JS `a || b` on strings: the empty string is the only falsy string. -/
def jsOr (a b : String) : String := if a = "" then b else a

/-- JS `String.prototype.trim()` (an external builtin): strip whitespace from
both ends of the string.  Implemented executably over the character list. -/
def jsTrim (s : String) : String :=
  ⟨List.rdropWhile Char.isWhitespace (List.dropWhile Char.isWhitespace s.data)⟩

/-- Model of `safeStr(v)` from server.js: `String(v ?? "").trim()`; an absent value
(`undefined`/`null`, here `none`) becomes `""`. -/
def safeStr (v : Option String) : String := jsTrim (v.getD "")

/-- JS `s || null` (store a string, mapping `""` to `null`). -/
def jsNullable (s : String) : Option String := if s = "" then none else some s

/-- The `point_of_interaction.transaction_data` slice of a Mercado Pago payment. -/
structure TxData where
  qr_code : Option String
  qr_code_base64 : Option String
deriving DecidableEq, Repr

/-- The `metadata` object of a Mercado Pago payment. -/
structure MPMetadata where
  rid : Option String
  orderId : Option String
deriving DecidableEq, Repr

/-- The slice of a Mercado Pago payment record that server.js reads.  Every
field may be absent (`none`), matching the `?.` accesses in the source. -/
structure MPPayment where
  id : Option String
  status : Option String
  status_detail : Option String
  date_of_expiration : Option String
  external_reference : Option String
  metadata : Option MPMetadata
  transaction_data : Option TxData
deriving DecidableEq, Repr

/-- Model of `getTx(p)`: `p?.point_of_interaction?.transaction_data || null`. -/
def getTx (p : MPPayment) : Option TxData := p.transaction_data

/-- Model of `isFuture(iso)` from server.js: false on empty input, otherwise parse the
ISO string to epoch milliseconds (`parseDate` models `new Date(iso).getTime()`;
`none` models `NaN`) and compare with `Date.now()`. -/
def isFuture (parseDate : String → Option Int) (nowMs : Nat) (iso : String) : Bool :=
  if iso = "" then false
  else
    match parseDate iso with
    | none => false
    | some t => decide ((nowMs : Int) < t)

/-- Model of `Math.floor(Date.now() / (30 * 60 * 1000))`: the 30-minute time bucket. -/
def bucketOf (nowMs : Nat) : Nat := nowMs / (30 * 60 * 1000)

/-- The string hashed by `makeIdempotencyKey`:
`` `pix|${rid}|${orderId}|${totalCentsBucket}` ``. -/
def makeIdempotencyKeyRaw (rid orderId totalCentsBucket : String) : String :=
  "pix|" ++ rid ++ "|" ++ orderId ++ "|" ++ totalCentsBucket

/-- Model of `makeIdempotencyKey` from server.js.  The SHA-256 digest
(`crypto.createHash("sha256")`, an external primitive) is a parameter. -/
def makeIdempotencyKey (hash : String → String) (rid orderId totalCentsBucket : String) :
    String :=
  hash (makeIdempotencyKeyRaw rid orderId totalCentsBucket)

/-- The string `` `${totalCents}|${bucket}` `` as passed to `makeIdempotencyKey` by the
`/pix` handler. -/
def totalCentsBucketStr (totalCents bucket : Nat) : String :=
  Nat.repr totalCents ++ "|" ++ Nat.repr bucket

/-- A Firestore document path that server.js writes to. -/
inductive DocPath where
  /-- Path `restaurants/{rid}/orders/{orderId}`. -/
  | priv (rid orderId : String)
  /-- Path `restaurants/{rid}/orders_public/{orderId}`. -/
  | pub (rid orderId : String)
  /-- legacy `orders/{orderId}` -/
  | legacyPriv (orderId : String)
  /-- legacy `orders_public/{orderId}` -/
  | legacyPub (orderId : String)
deriving DecidableEq, Repr

/-- The `mpData` record server.js builds (the `updatedAt` server timestamp is
always attached and is left implicit). -/
structure MpDataRec where
  payment_id : String
  status : String
  status_detail : Option String
  rid : String
  orderId : String
  date_of_expiration : Option String
deriving DecidableEq, Repr

/-- One `batch.set(ref, data, {merge: true})` call: the target path, the
merged `mp` record, the optional top-level `status` field, and whether a
`paidAt` server timestamp is set.  (`updatedAt` is always set.) -/
structure OrderWrite where
  path : DocPath
  mp : MpDataRec
  status : Option String
  paidAt : Bool
deriving DecidableEq, Repr

/-- The JSON body of a `/pix` response.  Outer `Option` = field present in the
JSON object; inner `Option` (where used) = JSON `null`.  The numeric `status`
field of the catch-path body is kept separate (`errHttpStatus`) from the
payment-status string field (`status`). -/
structure PixResp where
  http : Nat
  error : Option String := none
  payment_id : Option (Option String) := none
  status : Option String := none
  status_detail : Option (Option String) := none
  date_of_expiration : Option (Option String) := none
  qr_code : Option String := none
  qr_code_base64 : Option String := none
  reused : Option Bool := none
  errHttpStatus : Option Nat := none
deriving DecidableEq, Repr

/-- Request body of `POST /pix`.  `total` is `Number(req.body?.total)`
idealised as an exact rational; `none` stands for a non-finite result.  The
remaining fields model the raw body strings (`none` = absent). -/
structure PixReq where
  total : Option ℚ
  description : Option String := none
  orderId : Option String := none
  rid : Option String := none
  payerName : Option String := none
  payerPhone : Option String := none
  payerCpf : Option String := none

/-- The external world as observed by one `/pix` request. -/
structure PixEnv where
  /-- Value of `Date.now()` in epoch milliseconds. -/
  nowMs : Nat
  /-- Model of `new Date(iso).getTime()`; `none` models `NaN`. -/
  parseDate : String → Option Int
  /-- the string produced by `nowIsoPlusMinutes(30)`. -/
  isoExpires : String
  /-- the persisted order document: `none` if `snap.exists` is false, else the
  raw `mp.payment_id` field (`none` = field absent). -/
  storedMpPaymentId : Option (Option String)
  /-- Model of `paymentApi.get({id})`: the record, or a thrown error. -/
  getPayment : String → Except Unit MPPayment
  /-- Model of `paymentApi.create(...)`: the result, or a thrown error carrying
  `err.status` (`0` = no status present, the JS falsy case). -/
  createPayment : Except Nat MPPayment
  /-- Model of `crypto.createHash("sha256").update(raw).digest("hex")`. -/
  hash : String → String
  /-- Model of `Math.round(Number(total.toFixed(2)) * 100)` on the validated total. -/
  toCents : ℚ → Nat

/-- Validation `Number.isFinite(total) && total > 0`. -/
def totalOk : Option ℚ → Bool
  | none => false
  | some t => decide (0 < t)

/-- Model of `snap.exists ? safeStr(snap.data()?.mp?.payment_id) : ""`. -/
def storedPaymentId (env : PixEnv) : String :=
  match env.storedMpPaymentId with
  | none => ""
  | some v => safeStr v

/-- Result of one `/pix` request: response, Firestore writes committed, and
the charge-creation call if one was made (idempotency key sent and outcome). -/
structure PixResult where
  resp : PixResp
  writes : List OrderWrite
  created : Option (String × Except Nat MPPayment)

/-- The charge-creation tail of the `/pix` handler (everything after the
reuse attempt): derive the idempotency key, call `paymentApi.create`, and
either surface the error (outer catch), reject a non-pending result with
HTTP 400, or persist and return the fresh QR payload. -/
def pixCreateFlow (env : PixEnv) (total : ℚ) (rid orderId : String) : PixResult :=
  let expires := env.isoExpires
  let totalCents := env.toCents total
  let bucket := bucketOf env.nowMs
  let idemKey := makeIdempotencyKey env.hash rid orderId (totalCentsBucketStr totalCents bucket)
  match env.createPayment with
  | .error e =>
      -- outer catch: `err?.status || 500`
      let s := if e = 0 then 500 else e
      { resp := { http := s, error := some "Erro ao gerar PIX", errHttpStatus := some s },
        writes := [],
        created := some (idemKey, .error e) }
  | .ok result =>
      let status := safeStr result.status
      let statusDetail := jsNullable (safeStr result.status_detail)
      if status ≠ "pending" then
        { resp := { http := 400,
                    error := some "Pagamento não ficou pendente (não dá pra pagar esse QR).",
                    status := some status,
                    status_detail := some statusDetail,
                    payment_id := some result.id },
          writes := [],
          created := some (idemKey, .ok result) }
      else
        let paymentId := safeStr result.id
        let tx := getTx result
        let doe := jsOr (safeStr result.date_of_expiration) expires
        let mpData : MpDataRec :=
          { payment_id := paymentId, status := status, status_detail := statusDetail,
            rid := rid, orderId := orderId, date_of_expiration := some doe }
        { resp := { http := 200,
                    payment_id := some (jsNullable paymentId),
                    status := some status,
                    date_of_expiration := some (jsNullable doe),
                    qr_code := some ((tx.bind TxData.qr_code).getD ""),
                    qr_code_base64 := some ((tx.bind TxData.qr_code_base64).getD ""),
                    reused := some false },
          writes := [⟨.priv rid orderId, mpData, none, false⟩,
                     ⟨.pub rid orderId, mpData, none, false⟩,
                     ⟨.legacyPriv orderId, mpData, none, false⟩,
                     ⟨.legacyPub orderId, mpData, none, false⟩],
          created := some (idemKey, .ok result) }

/-- Model of `app.post("/pix")`: validation, the reuse attempt on the persisted
payment id, then charge creation. -/
def pixHandler (env : PixEnv) (req : PixReq) : PixResult :=
  let orderId := safeStr req.orderId
  let rid := safeStr req.rid
  if !totalOk req.total then
    { resp := { http := 400, error := some "total inválido" }, writes := [], created := none }
  else if orderId = "" then
    { resp := { http := 400, error := some "orderId é obrigatório" }, writes := [],
      created := none }
  else if rid = "" then
    { resp := { http := 400, error := some "rid é obrigatório (multi-restaurante)" },
      writes := [], created := none }
  else
    let total := req.total.getD 0
    let existingPaymentId := storedPaymentId env
    if existingPaymentId ≠ "" then
      match env.getPayment existingPaymentId with
      | .error _ =>
          -- inner catch: log a warning, fall through to creating a new charge
          pixCreateFlow env total rid orderId
      | .ok existing =>
          let exStatus := safeStr existing.status
          let exExp := safeStr existing.date_of_expiration
          if exStatus = "approved" then
            { resp := { http := 409, error := some "Pedido já está pago.",
                        payment_id :=
                          some (some (safeStr (some (jsOr (existing.id.getD "")
                            existingPaymentId)))),
                        status := some exStatus },
              writes := [], created := none }
          else if exStatus = "pending" && isFuture env.parseDate env.nowMs exExp then
            let tx := getTx existing
            let pid := safeStr (some (jsOr (existing.id.getD "") existingPaymentId))
            let mpData : MpDataRec :=
              { payment_id := pid, status := exStatus,
                status_detail := jsNullable (safeStr existing.status_detail),
                rid := rid, orderId := orderId,
                date_of_expiration := jsNullable exExp }
            { resp := { http := 200,
                        payment_id := some (some pid),
                        status := some exStatus,
                        date_of_expiration := some (jsNullable exExp),
                        qr_code := some ((tx.bind TxData.qr_code).getD ""),
                        qr_code_base64 := some ((tx.bind TxData.qr_code_base64).getD ""),
                        reused := some true },
              writes := [⟨.priv rid orderId, mpData, none, false⟩,
                         ⟨.pub rid orderId, mpData, none, false⟩,
                         ⟨.legacyPriv orderId, mpData, none, false⟩,
                         ⟨.legacyPub orderId, mpData, none, false⟩],
              created := none }
          else
            pixCreateFlow env total rid orderId
    else
      pixCreateFlow env total rid orderId

/-- Inbound webhook request.  Besides the fields the handler reads (the three
possible carriers of the payment id and the `secret` query parameter), the
record carries untrusted notification fields — `bodyStatus`, `bodyType`,
`bodyAction` — that the source never dereferences. -/
structure WebhookReq where
  /-- Field `req.body?.data?.id`. -/
  bodyDataId : Option String := none
  /-- Field `req.body?.id`. -/
  bodyId : Option String := none
  /-- Field `req.query?.["data.id"]`. -/
  queryDataId : Option String := none
  /-- Field `req.query?.secret`. -/
  querySecret : Option String := none
  /-- an untrusted `status` field in the notification body (never read). -/
  bodyStatus : Option String := none
  /-- The `type` field of the notification body (never read). -/
  bodyType : Option String := none
  /-- The `action` field of the notification body (never read). -/
  bodyAction : Option String := none
deriving DecidableEq, Repr

/-- The external world as observed by one webhook request. -/
structure WebhookEnv where
  /-- Value of `WEBHOOK_SECRET` (`""` = not configured). -/
  webhookSecret : String
  /-- Model of `paymentApi.get({id})`. -/
  getPayment : String → Except Unit MPPayment

/-- JSON body of a webhook response. -/
structure WebhookResp where
  http : Nat
  ok : Option Bool := none
  error : Option String := none
  ignored : Option String := none
  rid : Option String := none
  orderId : Option String := none
deriving DecidableEq, Repr

/-- Result of one webhook request: response plus Firestore writes. -/
structure WebhookResult where
  resp : WebhookResp
  writes : List OrderWrite
deriving DecidableEq, Repr

/-- Model of `safeStr(req.body?.data?.id || req.body?.id || req.query?.["data.id"] || "")`. -/
def extractPaymentId (req : WebhookReq) : String :=
  safeStr (some (jsOr (req.bodyDataId.getD "")
    (jsOr (req.bodyId.getD "") (jsOr (req.queryDataId.getD "") ""))))

/-- The secret gate: passes when no secret is configured or the `secret`
query parameter matches. -/
def secretOk (env : WebhookEnv) (req : WebhookReq) : Bool :=
  env.webhookSecret = "" || safeStr req.querySecret = env.webhookSecret

/-- The `rid` resolved from the authoritative payment record:
`safeStr(p?.metadata?.rid)`. -/
def webhookRid (p : MPPayment) : String :=
  safeStr (p.metadata.bind MPMetadata.rid)

/-- The `orderId` resolved from the authoritative payment record:
`safeStr(p?.metadata?.orderId || p?.external_reference)`. -/
def webhookOrderId (p : MPPayment) : String :=
  safeStr (some (jsOr ((p.metadata.bind MPMetadata.orderId).getD "")
    (p.external_reference.getD "")))

/-- Everything the webhook handler does after the secret gate.  The handler
touches the request only through the extracted payment id: the notification
body is never trusted for status — the payment is re-fetched from the
processor, and `rid`/`orderId` come from the processor record's metadata and
external reference. -/
def webhookProcess (env : WebhookEnv) (paymentId : String) : WebhookResult :=
  if paymentId = "" then
    { resp := { http := 200, ok := some true, ignored := some "no payment id" }, writes := [] }
  else
    match env.getPayment paymentId with
    | .error _ =>
        -- catch: a webhook must never "fall over"; log and acknowledge
        { resp := { http := 200, ok := some true }, writes := [] }
    | .ok p =>
        let status := safeStr p.status
        let statusDetail := jsNullable (safeStr p.status_detail)
        let rid := webhookRid p
        let orderId := webhookOrderId p
        if rid = "" || orderId = "" then
          { resp := { http := 200, ok := some true, ignored := some "missing rid/orderId",
                      rid := some rid, orderId := some orderId },
            writes := [] }
        else
          let mpData : MpDataRec :=
            { payment_id := safeStr (some (jsOr (p.id.getD "") paymentId)),
              status := status, status_detail := statusDetail,
              rid := rid, orderId := orderId,
              date_of_expiration := jsNullable (safeStr p.date_of_expiration) }
          if status = "approved" then
            { resp := { http := 200, ok := some true },
              writes := [⟨.priv rid orderId, mpData, some "em_preparo", true⟩,
                         ⟨.pub rid orderId, mpData, some "em_preparo", true⟩,
                         ⟨.legacyPriv orderId, mpData, some "em_preparo", true⟩,
                         ⟨.legacyPub orderId, mpData, some "em_preparo", true⟩] }
          else
            { resp := { http := 200, ok := some true },
              writes := [⟨.priv rid orderId, mpData, none, false⟩,
                         ⟨.pub rid orderId, mpData, none, false⟩,
                         ⟨.legacyPriv orderId, mpData, none, false⟩,
                         ⟨.legacyPub orderId, mpData, none, false⟩] }

/-- Model of `app.post("/webhook/mercadopago")`: the secret gate, then processing
driven entirely by the extracted payment id. -/
def webhookHandler (env : WebhookEnv) (req : WebhookReq) : WebhookResult :=
  if env.webhookSecret ≠ "" && safeStr req.querySecret ≠ env.webhookSecret then
    { resp := { http := 401, error := some "unauthorized" }, writes := [] }
  else
    webhookProcess env (extractPaymentId req)

/-! ## Trimming lemmas -/

/-- Dropping a leading `p`-run from a list that has none is the identity,
also after trimming a trailing run. -/
theorem dropWhile_rdropWhile (p : Char → Bool) (l : List Char)
    (h : List.dropWhile p l = l) :
    List.dropWhile p (List.rdropWhile p l) = List.rdropWhile p l := by
  rcases hr : List.rdropWhile p l with _ | ⟨x, xs⟩
  · simp
  · obtain ⟨t, ht⟩ := List.rdropWhile_prefix p l
    rw [hr] at ht
    have hx : ¬ p x = true := by
      have h0 := List.dropWhile_eq_self_iff.mp h
      subst ht
      simpa using h0 (by simp)
    simp [List.dropWhile_cons, hx]

/-- Trimming is idempotent. -/
theorem jsTrim_jsTrim (s : String) : jsTrim (jsTrim s) = jsTrim s := by
  unfold jsTrim
  congr 1
  exact (congrArg _ (dropWhile_rdropWhile _ _ (List.dropWhile_idempotent _ _))).trans
    (List.rdropWhile_idempotent _ _)

/-- The persisted payment id read back by `/pix` is already trimmed. -/
theorem jsTrim_storedPaymentId (env : PixEnv) :
    jsTrim (storedPaymentId env) = storedPaymentId env := by
  unfold storedPaymentId
  cases env.storedMpPaymentId with
  | none => rfl
  | some v => exact jsTrim_jsTrim _

/-! ## Claims about the `/pix` handler -/

/-- C1.  A `/pix` call with valid inputs, whose persisted order carries a
payment id that the processor reports as `pending` with a future expiration,
answers HTTP 200 with the persisted payment id, `reused: true`, and performs
no charge creation.  (`hid` pins the processor to returning the record of the
id that was asked for, or no id at all.) -/
theorem pix_reuses_pending_payment (env : PixEnv) (req : PixReq) (ex : MPPayment)
    (htot : totalOk req.total = true)
    (hoid : safeStr req.orderId ≠ "")
    (hrid : safeStr req.rid ≠ "")
    (hpid : storedPaymentId env ≠ "")
    (hget : env.getPayment (storedPaymentId env) = .ok ex)
    (hid : ex.id = none ∨ ex.id = some (storedPaymentId env))
    (hstat : safeStr ex.status = "pending")
    (hfut : isFuture env.parseDate env.nowMs (safeStr ex.date_of_expiration) = true) :
    (pixHandler env req).resp.http = 200 ∧
    (pixHandler env req).resp.payment_id = some (some (storedPaymentId env)) ∧
    (pixHandler env req).resp.reused = some true ∧
    (pixHandler env req).created = none := by
  unfold pixHandler
  simp only [htot, Bool.not_true, Bool.false_eq_true, if_false, if_neg hoid, if_neg hrid,
    if_pos hpid, hget]
  have hna : ¬ safeStr ex.status = "approved" := by rw [hstat]; decide
  rw [if_neg hna,
    if_pos (show (decide (safeStr ex.status = "pending")
        && isFuture env.parseDate env.nowMs (safeStr ex.date_of_expiration)) = true by
      rw [hfut]; simp [hstat])]
  have hpe : safeStr (some (jsOr (ex.id.getD "") (storedPaymentId env))) = storedPaymentId env := by
    rcases hid with h | h <;>
      simp [h, jsOr, safeStr, Option.getD, jsTrim_storedPaymentId, hpid]
  exact ⟨rfl, by simp only [hpe], rfl, rfl⟩

/-- C2.  A `/pix` call with valid inputs whose persisted payment is already
`approved` answers HTTP 409 carrying the existing payment id and status, and
performs no charge creation. -/
theorem pix_conflict_on_approved_payment (env : PixEnv) (req : PixReq) (ex : MPPayment)
    (htot : totalOk req.total = true)
    (hoid : safeStr req.orderId ≠ "")
    (hrid : safeStr req.rid ≠ "")
    (hpid : storedPaymentId env ≠ "")
    (hget : env.getPayment (storedPaymentId env) = .ok ex)
    (hid : ex.id = none ∨ ex.id = some (storedPaymentId env))
    (hstat : safeStr ex.status = "approved") :
    (pixHandler env req).resp.http = 409 ∧
    (pixHandler env req).resp.payment_id = some (some (storedPaymentId env)) ∧
    (pixHandler env req).resp.status = some "approved" ∧
    (pixHandler env req).created = none := by
  unfold pixHandler
  simp only [htot, Bool.not_true, Bool.false_eq_true, if_false, if_neg hoid, if_neg hrid,
    if_pos hpid, hget]
  rw [if_pos hstat]
  have hpe : safeStr (some (jsOr (ex.id.getD "") (storedPaymentId env))) = storedPaymentId env := by
    rcases hid with h | h <;>
      simp [h, jsOr, safeStr, Option.getD, jsTrim_storedPaymentId, hpid]
  exact ⟨rfl, by simp only [hpe], by rw [hstat], rfl⟩

/-- Every `/pix` request either makes no charge-creation call or is handled
end-to-end by the creation tail of the handler. -/
theorem pixHandler_created_none_or_flow (env : PixEnv) (req : PixReq) :
    (pixHandler env req).created = none ∨
    pixHandler env req =
      pixCreateFlow env (req.total.getD 0) (safeStr req.rid) (safeStr req.orderId) := by
  unfold pixHandler
  dsimp only
  split
  · exact Or.inl rfl
  · split
    · exact Or.inl rfl
    · split
      · exact Or.inl rfl
      · split
        · split
          · exact Or.inr rfl
          · split
            · exact Or.inl rfl
            · split
              · exact Or.inl rfl
              · exact Or.inr rfl
        · exact Or.inr rfl

/-- C6.  When the processor's charge-creation result has a status other than
`pending`, `/pix` answers HTTP 400 with `error`, `status`, `status_detail`
and `payment_id` in the body, and commits no database write. -/
theorem pix_nonpending_creation_rejected (env : PixEnv) (req : PixReq)
    (k : String) (result : MPPayment)
    (hcr : (pixHandler env req).created = some (k, .ok result))
    (hst : safeStr result.status ≠ "pending") :
    (pixHandler env req).resp.http = 400 ∧
    (pixHandler env req).resp.error =
      some "Pagamento não ficou pendente (não dá pra pagar esse QR)." ∧
    (pixHandler env req).resp.status = some (safeStr result.status) ∧
    (pixHandler env req).resp.status_detail =
      some (jsNullable (safeStr result.status_detail)) ∧
    (pixHandler env req).resp.payment_id = some result.id ∧
    (pixHandler env req).writes = [] := by
  rcases pixHandler_created_none_or_flow env req with hnone | heq
  · rw [hnone] at hcr; exact absurd hcr (by simp)
  · rw [heq] at hcr ⊢
    unfold pixCreateFlow at hcr ⊢
    dsimp only at hcr ⊢
    rcases hc : env.createPayment with e | r
    · rw [hc] at hcr
      simp at hcr
    · rw [hc] at hcr
      dsimp only at hcr ⊢
      by_cases hp : safeStr r.status ≠ "pending"
      · rw [if_pos hp] at hcr ⊢
        simp only [Option.some_inj, Prod.mk.injEq, Except.ok.injEq] at hcr
        obtain ⟨-, rfl⟩ := hcr
        exact ⟨rfl, rfl, rfl, rfl, rfl, rfl⟩
      · rw [if_neg hp] at hcr
        simp only [Option.some_inj, Prod.mk.injEq, Except.ok.injEq] at hcr
        obtain ⟨-, rfl⟩ := hcr
        exact absurd (not_not.mp hp) hst

/-- The QR/status discipline of one `/pix` result record. -/
def qrDiscipline (r : PixResult) : Prop :=
  (∀ q, r.resp.qr_code = some q → q ≠ "" →
    r.resp.status = some "pending" ∧ r.resp.http = 200) ∧
  (∀ q, r.resp.qr_code_base64 = some q → q ≠ "" →
    r.resp.status = some "pending" ∧ r.resp.http = 200) ∧
  (∀ s, r.resp.status = some s → s ≠ "pending" →
    (r.resp.http = 400 ∨ r.resp.http = 409) ∧
    r.resp.qr_code = none ∧ r.resp.qr_code_base64 = none)

/-- The creation tail obeys the QR/status discipline. -/
theorem pixCreateFlow_qrDiscipline (env : PixEnv) (t : ℚ) (rid oid : String) :
    qrDiscipline (pixCreateFlow env t rid oid) := by
  unfold qrDiscipline pixCreateFlow
  dsimp only
  rcases hc : env.createPayment with e | r
  · dsimp only
    simp
  · dsimp only
    by_cases hp : safeStr r.status ≠ "pending"
    · rw [if_pos hp]
      simp +contextual
    · rw [if_neg hp]
      have hps := not_not.mp hp
      simp [hps]

/-- C5.  A QR payload reaches the caller only alongside payment status
`pending` (and HTTP 200); whenever the response carries a payment status
other than `pending`, it is an HTTP 400 or 409 error with no QR fields. -/
theorem pix_qr_implies_pending (env : PixEnv) (req : PixReq) :
    qrDiscipline (pixHandler env req) := by
  unfold pixHandler
  dsimp only
  by_cases h1 : (!totalOk req.total) = true
  · rw [if_pos h1]; unfold qrDiscipline; simp
  · rw [if_neg h1]
    by_cases h2 : safeStr req.orderId = ""
    · rw [if_pos h2]; unfold qrDiscipline; simp
    · rw [if_neg h2]
      by_cases h3 : safeStr req.rid = ""
      · rw [if_pos h3]; unfold qrDiscipline; simp
      · rw [if_neg h3]
        by_cases h4 : storedPaymentId env ≠ ""
        · rw [if_pos h4]
          rcases h5 : env.getPayment (storedPaymentId env) with e | ex
          · exact pixCreateFlow_qrDiscipline env _ _ _
          · dsimp only
            by_cases h6 : safeStr ex.status = "approved"
            · rw [if_pos h6]
              unfold qrDiscipline
              refine ⟨by simp, by simp, ?_⟩
              intro s hs _
              simp only [PixResp.status] at hs
              exact ⟨Or.inr rfl, rfl, rfl⟩
            · rw [if_neg h6]
              by_cases h7 : (decide (safeStr ex.status = "pending")
                  && isFuture env.parseDate env.nowMs (safeStr ex.date_of_expiration)) = true
              · rw [if_pos h7]
                have hps : safeStr ex.status = "pending" := by
                  have := (Bool.and_eq_true _ _).mp h7
                  exact of_decide_eq_true this.1
                unfold qrDiscipline
                simp [hps]
              · rw [if_neg h7]
                exact pixCreateFlow_qrDiscipline env _ _ _
        · rw [if_neg h4]
          exact pixCreateFlow_qrDiscipline env _ _ _

/-! ## Claims about the webhook handler -/

/-- C10.  The webhook endpoint responds 200 in every case — missing payment
id, missing metadata, successful reconciliation, or a processor-fetch error —
except exactly one: a configured webhook secret that the request's `secret`
query parameter fails to match, which yields 401. -/
theorem webhook_always_200_except_bad_secret (env : WebhookEnv) (req : WebhookReq) :
    (webhookHandler env req).resp.http =
      if env.webhookSecret ≠ "" ∧ safeStr req.querySecret ≠ env.webhookSecret
      then 401 else 200 := by
  unfold webhookHandler webhookProcess
  by_cases hs : env.webhookSecret ≠ "" ∧ safeStr req.querySecret ≠ env.webhookSecret
  · simp [hs.1, hs.2]
  · rw [if_neg hs]
    have hb : (env.webhookSecret ≠ "" && safeStr req.querySecret ≠ env.webhookSecret) = false := by
      rcases not_and_or.mp hs with h | h
      · simp [not_not.mp h]
      · simp [not_not.mp h]
    rw [hb]
    simp only [Bool.false_eq_true, if_false]
    split
    · rfl
    · split
      · rfl
      · split
        · rfl
        · split <;> rfl

/-- C7.  The webhook handler never reads any status (or other) field of the
inbound notification body: given the same environment, any two requests that
pass the secret gate and yield the same extracted payment id produce the same
database writes and the same response. -/
theorem webhook_depends_only_on_payment_id (env : WebhookEnv) (r1 r2 : WebhookReq)
    (hid : extractPaymentId r1 = extractPaymentId r2)
    (h1 : secretOk env r1 = true) (h2 : secretOk env r2 = true) :
    webhookHandler env r1 = webhookHandler env r2 := by
  unfold webhookHandler
  have g1 : (env.webhookSecret ≠ "" && safeStr r1.querySecret ≠ env.webhookSecret) = false := by
    rcases Bool.or_eq_true_iff.mp h1 with h | h
    · simp [decide_eq_true_eq.mp h]
    · simp [decide_eq_true_eq.mp h]
  have g2 : (env.webhookSecret ≠ "" && safeStr r2.querySecret ≠ env.webhookSecret) = false := by
    rcases Bool.or_eq_true_iff.mp h2 with h | h
    · simp [decide_eq_true_eq.mp h]
    · simp [decide_eq_true_eq.mp h]
  rw [g1, g2, hid]

/-- C9.  A webhook call with a resolvable payment id whose re-fetched
processor record lacks a resolvable `rid` or `orderId` is acknowledged with
HTTP 200 and an "ignored" indicator, and performs no database write. -/
theorem webhook_missing_metadata_is_noop (env : WebhookEnv) (req : WebhookReq) (p : MPPayment)
    (hs : secretOk env req = true)
    (hpid : extractPaymentId req ≠ "")
    (hget : env.getPayment (extractPaymentId req) = .ok p)
    (hmiss : webhookRid p = "" ∨ webhookOrderId p = "") :
    (webhookHandler env req).resp.http = 200 ∧
    (webhookHandler env req).resp.ignored = some "missing rid/orderId" ∧
    (webhookHandler env req).writes = [] := by
  have g : (env.webhookSecret ≠ "" && safeStr req.querySecret ≠ env.webhookSecret) = false := by
    rcases Bool.or_eq_true_iff.mp hs with h | h
    · simp [decide_eq_true_eq.mp h]
    · simp [decide_eq_true_eq.mp h]
  have hm : (webhookRid p = "" || webhookOrderId p = "") = true := by
    rcases hmiss with h | h <;> simp [h]
  unfold webhookHandler webhookProcess
  rw [g]
  simp only [Bool.false_eq_true, if_false, if_neg hpid, hget, hm, if_true]
  exact ⟨trivial, trivial, trivial⟩

/-- C8.  A webhook call whose re-fetched processor record is `approved` with
resolvable `rid` and `orderId` writes the merged `mp` record together with
status `"em_preparo"` and a `paidAt` server timestamp to the primary and
public paths and to the two legacy paths. -/
theorem webhook_approved_promotes_order (env : WebhookEnv) (req : WebhookReq) (p : MPPayment)
    (hs : secretOk env req = true)
    (hpid : extractPaymentId req ≠ "")
    (hget : env.getPayment (extractPaymentId req) = .ok p)
    (happ : safeStr p.status = "approved")
    (hrid : webhookRid p ≠ "") (hoid : webhookOrderId p ≠ "") :
    (webhookHandler env req).resp.http = 200 ∧
    (webhookHandler env req).writes =
      (let mpData : MpDataRec :=
        { payment_id := safeStr (some (jsOr (p.id.getD "") (extractPaymentId req))),
          status := "approved",
          status_detail := jsNullable (safeStr p.status_detail),
          rid := webhookRid p, orderId := webhookOrderId p,
          date_of_expiration := jsNullable (safeStr p.date_of_expiration) }
       [⟨.priv (webhookRid p) (webhookOrderId p), mpData, some "em_preparo", true⟩,
        ⟨.pub (webhookRid p) (webhookOrderId p), mpData, some "em_preparo", true⟩,
        ⟨.legacyPriv (webhookOrderId p), mpData, some "em_preparo", true⟩,
        ⟨.legacyPub (webhookOrderId p), mpData, some "em_preparo", true⟩]) := by
  have g : (env.webhookSecret ≠ "" && safeStr req.querySecret ≠ env.webhookSecret) = false := by
    rcases Bool.or_eq_true_iff.mp hs with h | h
    · simp [decide_eq_true_eq.mp h]
    · simp [decide_eq_true_eq.mp h]
  have hm : (webhookRid p = "" || webhookOrderId p = "") = false := by
    simp [hrid, hoid]
  unfold webhookHandler webhookProcess
  rw [g]
  simp only [Bool.false_eq_true, if_false, if_neg hpid, hget, hm, happ, if_true]
  exact ⟨trivial, trivial⟩

/-- An approved payment with resolvable metadata, for concrete instantiation. -/
def wPayApproved : MPPayment :=
  { id := some "777", status := some "approved", status_detail := some "accredited",
    date_of_expiration := none, external_reference := some "order1",
    metadata := some { rid := some "rest1", orderId := some "order1" },
    transaction_data := none }

/-- A payment with no metadata and no external reference, for concrete
instantiation. -/
def wPayNoMeta : MPPayment :=
  { id := some "778", status := some "approved", status_detail := none,
    date_of_expiration := none, external_reference := none, metadata := none,
    transaction_data := none }

/-- A concrete webhook environment: a configured secret and a processor that
knows the two payments above. -/
def wEnv : WebhookEnv :=
  { webhookSecret := "s3cret",
    getPayment := fun pid =>
      if pid = "777" then .ok wPayApproved
      else if pid = "778" then .ok wPayNoMeta
      else .error () }

/-- Witness for C7: two notifications carrying the payment id in different
positions and contradictory untrusted `status` fields are processed
identically. -/
theorem webhook_depends_only_on_payment_id_witness :
    webhookHandler wEnv
        { bodyDataId := some "777", querySecret := some "s3cret",
          bodyStatus := some "approved" } =
      webhookHandler wEnv
        { bodyId := some "777", querySecret := some "s3cret",
          bodyStatus := some "rejected" } :=
  webhook_depends_only_on_payment_id wEnv _ _ rfl rfl rfl

/-- Witness for C9: payment `778` resolves but carries no rid/orderId; the
call is acknowledged and ignored with no writes. -/
theorem webhook_missing_metadata_is_noop_witness :
    (webhookHandler wEnv { bodyDataId := some "778", querySecret := some "s3cret" }).resp.http
        = 200 ∧
    (webhookHandler wEnv
        { bodyDataId := some "778", querySecret := some "s3cret" }).resp.ignored
        = some "missing rid/orderId" ∧
    (webhookHandler wEnv { bodyDataId := some "778", querySecret := some "s3cret" }).writes
        = [] :=
  webhook_missing_metadata_is_noop wEnv _ wPayNoMeta rfl (by decide) rfl
    (Or.inl rfl)

/-- Witness for C8: payment `777` is approved with resolvable metadata; the
handler acknowledges with HTTP 200 (and, by the theorem, promotes the order
in all four paths). -/
theorem webhook_approved_promotes_order_witness :
    (webhookHandler wEnv { bodyDataId := some "777", querySecret := some "s3cret" }).resp.http
      = 200 :=
  (webhook_approved_promotes_order wEnv
    { bodyDataId := some "777", querySecret := some "s3cret" } wPayApproved rfl
    (by decide) rfl rfl (by decide) (by decide)).1

/-- A pending payment carrying a live QR, for concrete instantiation. -/
def pPayPending : MPPayment :=
  { id := some "55", status := some "pending", status_detail := none,
    date_of_expiration := some "2099-01-01T00:00:00.000Z", external_reference := none,
    metadata := none,
    transaction_data := some { qr_code := some "QRDATA", qr_code_base64 := some "QR64" } }

/-- An approved payment, for concrete instantiation. -/
def pPayApproved : MPPayment :=
  { id := some "55", status := some "approved", status_detail := some "accredited",
    date_of_expiration := none, external_reference := none, metadata := none,
    transaction_data := none }

/-- A rejected charge-creation result, for concrete instantiation. -/
def pPayRejected : MPPayment :=
  { id := some "90", status := some "rejected", status_detail := some "cc_rejected_bad_filled",
    date_of_expiration := none, external_reference := none, metadata := none,
    transaction_data := none }

/-- A valid `/pix` request body. -/
def pReqOk : PixReq := { total := some 1, orderId := some "o1", rid := some "r1" }

/-- Environment in which order `o1` holds pending payment `55`. -/
def pEnvReuse : PixEnv :=
  { nowMs := 1000,
    parseDate := fun s => if s = "2099-01-01T00:00:00.000Z" then some 2000 else none,
    isoExpires := "2026-10-11T00:30:00.000Z",
    storedMpPaymentId := some (some "55"),
    getPayment := fun pid => if pid = "55" then .ok pPayPending else .error (),
    createPayment := .error 0,
    hash := id, toCents := fun _ => 100 }

/-- Environment in which order `o1` holds approved payment `55`. -/
def pEnvApproved : PixEnv :=
  { nowMs := 1000,
    parseDate := fun _ => none,
    isoExpires := "2026-10-11T00:30:00.000Z",
    storedMpPaymentId := some (some "55"),
    getPayment := fun pid => if pid = "55" then .ok pPayApproved else .error (),
    createPayment := .error 0,
    hash := id, toCents := fun _ => 100 }

/-- Environment with no persisted payment and a rejecting processor. -/
def pEnvCreate : PixEnv :=
  { nowMs := 1000,
    parseDate := fun _ => none,
    isoExpires := "2026-10-11T00:30:00.000Z",
    storedMpPaymentId := none,
    getPayment := fun _ => .error (),
    createPayment := .ok pPayRejected,
    hash := id, toCents := fun _ => 100 }

/-- Witness for C1: the pending payment `55` is reused. -/
theorem pix_reuses_pending_payment_witness :
    (pixHandler pEnvReuse pReqOk).resp.http = 200 ∧
    (pixHandler pEnvReuse pReqOk).resp.payment_id = some (some "55") ∧
    (pixHandler pEnvReuse pReqOk).resp.reused = some true ∧
    (pixHandler pEnvReuse pReqOk).created = none :=
  pix_reuses_pending_payment pEnvReuse pReqOk pPayPending (by decide) (by decide)
    (by decide) (by decide) rfl (Or.inr rfl) rfl (by decide)

/-- Witness for C2: the approved payment `55` triggers the 409 conflict. -/
theorem pix_conflict_on_approved_payment_witness :
    (pixHandler pEnvApproved pReqOk).resp.http = 409 ∧
    (pixHandler pEnvApproved pReqOk).resp.payment_id = some (some "55") ∧
    (pixHandler pEnvApproved pReqOk).resp.status = some "approved" ∧
    (pixHandler pEnvApproved pReqOk).created = none :=
  pix_conflict_on_approved_payment pEnvApproved pReqOk pPayApproved (by decide) (by decide)
    (by decide) (by decide) rfl (Or.inr rfl) rfl

/-- Witness for C6: the rejected creation result yields HTTP 400. -/
theorem pix_nonpending_creation_rejected_witness :
    (pixHandler pEnvCreate pReqOk).resp.http = 400 ∧
    (pixHandler pEnvCreate pReqOk).writes = [] :=
  let h := pix_nonpending_creation_rejected pEnvCreate pReqOk
    (makeIdempotencyKey id "r1" "o1" (totalCentsBucketStr 100 0)) pPayRejected rfl (by decide)
  ⟨h.1, h.2.2.2.2.2⟩

/-- Witness for C5: on the concrete reuse path the returned QR comes with
status `pending` and HTTP 200. -/
theorem pix_qr_implies_pending_witness :
    (pixHandler pEnvReuse pReqOk).resp.status = some "pending" ∧
    (pixHandler pEnvReuse pReqOk).resp.http = 200 :=
  (pix_qr_implies_pending pEnvReuse pReqOk).1 "QRDATA" rfl (by decide)

/-! ## Decimal representation lemmas (for the idempotency-key claims) -/

/-- The function `Nat.digitChar` never emits the separator `'|'`. -/
theorem digitChar_ne_pipe (n : Nat) : Nat.digitChar n ≠ '|' := by
  by_cases h16 : n < 16
  · interval_cases n <;> decide
  · have hs : Nat.digitChar n = '*' := by
      unfold Nat.digitChar
      repeat rw [if_neg (by omega)]
    rw [hs]
    decide

/-- All characters emitted by `Nat.toDigitsCore` on a pipe-free accumulator
are pipe-free. -/
theorem toDigitsCore_ne_pipe (b : Nat) :
    ∀ (fuel n : Nat) (acc : List Char), (∀ c ∈ acc, c ≠ '|') →
      ∀ c ∈ Nat.toDigitsCore b fuel n acc, c ≠ '|' := by
  intro fuel
  induction fuel with
  | zero => intro n acc hacc; simpa [Nat.toDigitsCore] using hacc
  | succ f ih =>
    intro n acc hacc
    unfold Nat.toDigitsCore
    dsimp only
    have hcons : ∀ c ∈ Nat.digitChar (n % b) :: acc, c ≠ '|' := by
      intro c hc
      rcases List.mem_cons.mp hc with h | h
      · exact h ▸ digitChar_ne_pipe _
      · exact hacc c h
    split
    · exact hcons
    · exact ih (n / b) (Nat.digitChar (n % b) :: acc) hcons

/-- The decimal representation of a natural number never contains `'|'`. -/
theorem pipe_not_mem_repr (n : Nat) : '|' ∉ (Nat.repr n).data := by
  intro hmem
  have := toDigitsCore_ne_pipe 10 (n + 1) n [] (by simp) '|'
    (by simpa [Nat.repr, Nat.toDigits, List.asString] using hmem)
  exact this rfl

/-- Read a digit string back as a base-10 number. -/
def evalDigits (l : List Char) : Nat :=
  l.foldl (fun a c => 10 * a + (c.toNat - 48)) 0

/-- The accumulator of `Nat.toDigitsCore` is just appended to the output. -/
theorem toDigitsCore_acc (b : Nat) :
    ∀ (fuel n : Nat) (acc : List Char),
      Nat.toDigitsCore b fuel n acc = Nat.toDigitsCore b fuel n [] ++ acc := by
  intro fuel
  induction fuel with
  | zero => intro n acc; simp [Nat.toDigitsCore]
  | succ f ih =>
    intro n acc
    unfold Nat.toDigitsCore
    dsimp only
    split
    · simp
    · rw [ih (n / b) (Nat.digitChar (n % b) :: acc), ih (n / b) [Nat.digitChar (n % b)],
        List.append_assoc, List.singleton_append]

/-- The map `Nat.digitChar` is inverted by the digit value below 10. -/
theorem digitChar_val : ∀ m, m < 10 → (Nat.digitChar m).toNat - 48 = m := by decide

/-- Reading back the digits produced by `Nat.toDigitsCore` recovers the
number. -/
theorem evalDigits_toDigitsCore :
    ∀ fuel n, n < fuel → evalDigits (Nat.toDigitsCore 10 fuel n []) = n := by
  intro fuel
  induction fuel with
  | zero => intro n hn; exact absurd hn (Nat.not_lt_zero n)
  | succ f ih =>
    intro n hn
    unfold Nat.toDigitsCore
    dsimp only
    split
    · rename_i hdiv
      have hlt : n % 10 < 10 := Nat.mod_lt n (by decide)
      have hn10 : n < 10 := by omega
      have hmod : n % 10 = n := Nat.mod_eq_of_lt hn10
      simp [evalDigits, hmod, digitChar_val n hn10]
    · rename_i hdiv
      have hnz : n ≠ 0 := fun h => hdiv (by simp [h])
      have hrec : n / 10 < f := by
        have h1 : n / 10 < n := Nat.div_lt_self (Nat.pos_of_ne_zero hnz) (by decide)
        omega
      rw [toDigitsCore_acc 10 f (n / 10) [Nat.digitChar (n % 10)]]
      have hlt : n % 10 < 10 := Nat.mod_lt n (by decide)
      simp only [evalDigits, List.foldl_append, List.foldl_cons, List.foldl_nil]
      have := ih (n / 10) hrec
      simp only [evalDigits] at this
      rw [this, digitChar_val (n % 10) hlt]
      omega

/-- Decimal representation is injective. -/
theorem natRepr_injective : Function.Injective Nat.repr := by
  intro m n h
  have hl : Nat.toDigitsCore 10 (m + 1) m [] = Nat.toDigitsCore 10 (n + 1) n [] := by
    have := congrArg String.data h
    simpa [Nat.repr, Nat.toDigits, List.asString] using this
  have hm := evalDigits_toDigitsCore (m + 1) m (Nat.lt_succ_self m)
  have hn := evalDigits_toDigitsCore (n + 1) n (Nat.lt_succ_self n)
  rw [← hm, ← hn, hl]

/-- Splitting at the first separator is unambiguous when neither prefix
contains it. -/
theorem append_pipe_inj :
    ∀ (a b t u : List Char), '|' ∉ a → '|' ∉ b →
      a ++ '|' :: t = b ++ '|' :: u → a = b ∧ t = u := by
  intro a
  induction a with
  | nil =>
    intro b t u _ hb h
    cases b with
    | nil => simpa using h
    | cons c bs =>
      simp only [List.nil_append, List.cons_append, List.cons.injEq] at h
      exact absurd (h.1 ▸ List.mem_cons_self c bs) hb
  | cons c as ih =>
    intro b t u ha hb h
    cases b with
    | nil =>
      simp only [List.cons_append, List.nil_append, List.cons.injEq] at h
      exact absurd (h.1 ▸ List.mem_cons_self c as) ha
    | cons d bs =>
      simp only [List.cons_append, List.cons.injEq] at h
      obtain ⟨rfl, h2⟩ := h
      obtain ⟨h3, h4⟩ := ih bs t u (fun hx => ha (List.mem_cons_of_mem _ hx))
        (fun hx => hb (List.mem_cons_of_mem _ hx)) h2
      exact ⟨by rw [h3], h4⟩

/-! ## Claims about the idempotency key -/

/-- C3.  The idempotency-key derivation is deterministic: identical
`(rid, orderId, totalCents)` within the same 30-minute bucket derive the
same key on any two calls, for any digest function. -/
theorem idempotency_key_deterministic (hash : String → String) (rid orderId : String)
    (totalCents t1 t2 : Nat)
    (hb : bucketOf t1 = bucketOf t2) :
    makeIdempotencyKey hash rid orderId (totalCentsBucketStr totalCents (bucketOf t1)) =
    makeIdempotencyKey hash rid orderId (totalCentsBucketStr totalCents (bucketOf t2)) := by
  rw [hb]

/-- Witness for C3: two calls 29 minutes 59.999 seconds apart share the
bucket and the key. -/
theorem idempotency_key_deterministic_witness :
    makeIdempotencyKey id "r1" "o1" (totalCentsBucketStr 100 (bucketOf 0)) =
    makeIdempotencyKey id "r1" "o1" (totalCentsBucketStr 100 (bucketOf 1799999)) :=
  idempotency_key_deterministic id "r1" "o1" 100 0 1799999 (by decide)

/-- Counterexample to C4 as stated: the distinct input pairs
`(rid, orderId) = ("a|b", "c")` and `("a", "b|c")` produce the identical
SHA-256 pre-image, hence the identical idempotency key under any digest. -/
theorem idempotency_key_pipe_collision :
    ("a|b", "c") ≠ (("a" : String), ("b|c" : String)) ∧
    makeIdempotencyKeyRaw "a|b" "c" (totalCentsBucketStr 100 5) =
      makeIdempotencyKeyRaw "a" "b|c" (totalCentsBucketStr 100 5) ∧
    makeIdempotencyKey id "a|b" "c" (totalCentsBucketStr 100 5) =
      makeIdempotencyKey id "a" "b|c" (totalCentsBucketStr 100 5) :=
  ⟨by decide, by decide, by decide⟩

/-- C4 amended.  Provided `rid` and `orderId` contain no separator `'|'`,
changing any of `rid`, `orderId`, `totalCents` or the time bucket yields a
different hash pre-image and therefore a different idempotency key under any
collision-free digest. -/
theorem idempotency_key_inputs_separated
    (hash : String → String) (hinj : Function.Injective hash)
    (rid1 orderId1 rid2 orderId2 : String) (tc1 b1 tc2 b2 : Nat)
    (hr1 : '|' ∉ rid1.data) (ho1 : '|' ∉ orderId1.data)
    (hr2 : '|' ∉ rid2.data) (ho2 : '|' ∉ orderId2.data)
    (hne : (rid1, orderId1, tc1, b1) ≠ (rid2, orderId2, tc2, b2)) :
    makeIdempotencyKey hash rid1 orderId1 (totalCentsBucketStr tc1 b1) ≠
    makeIdempotencyKey hash rid2 orderId2 (totalCentsBucketStr tc2 b2) := by
  intro h
  apply hne
  have hraw := hinj h
  unfold makeIdempotencyKeyRaw totalCentsBucketStr at hraw
  have hdata := congrArg String.data hraw
  simp only [String.data_append, List.append_assoc] at hdata
  simp only [List.cons_append, List.nil_append, List.singleton_append,
    List.cons.injEq, true_and] at hdata
  obtain ⟨hrid, hrest⟩ := append_pipe_inj _ _ _ _ hr1 hr2 hdata
  obtain ⟨hoid, hrest2⟩ := append_pipe_inj _ _ _ _ ho1 ho2 hrest
  obtain ⟨htc, hbk⟩ := append_pipe_inj _ _ _ _ (pipe_not_mem_repr tc1)
    (pipe_not_mem_repr tc2) hrest2
  have e1 : rid1 = rid2 := String.ext hrid
  have e2 : orderId1 = orderId2 := String.ext hoid
  have e3 : tc1 = tc2 := natRepr_injective (String.ext htc)
  have e4 : b1 = b2 := natRepr_injective (String.ext hbk)
  rw [e1, e2, e3, e4]

/-- Witness for the amended C4: with the identity taken as the (injective)
digest, changing only the order id changes the key. -/
theorem idempotency_key_inputs_separated_witness :
    makeIdempotencyKey id "r1" "o1" (totalCentsBucketStr 100 5) ≠
    makeIdempotencyKey id "r1" "o2" (totalCentsBucketStr 100 5) :=
  idempotency_key_inputs_separated id (fun _ _ h => h) "r1" "o1" "r1" "o2" 100 5 100 5
    (by decide) (by decide) (by decide) (by decide) (by decide)

end CardapioPix
